import Mathlib

/-!
Shallow embedding of `src/chatbot.py` (class `TerminalChatbot`).

The program is a terminal chat client.  The state of a `TerminalChatbot`
object is its configuration (`api_key`, `api_url`, `model`, `max_tokens`)
together with the mutable `conversation_history` list of role/content
dictionaries.  The one network-facing operation is `make_api_request`
(lines 25-82 of the source): it appends the user message to the history,
performs one HTTP POST, and maps every outcome of the exchange to a
displayable string.

The HTTP exchange itself (urllib, the JSON decoder, the UTF-8 decoder)
is environment code, not repository code; it is modelled by the
`HttpOutcome` type, which records what the environment did: a 200
response together with the result of `json.loads(response.read().decode())`,
an `HTTPError` with a status code, the result of `e.read().decode('utf-8')`
and the result of `json.loads` on that body, or some other exception
raised by the transport.  Exceptions raised by Python expressions are
modelled with `Except PyExn`; a `.error` value that survives to the
result of `make_api_request` models an exception propagating out of the
method to its caller.
-/

/-- Model of a Python exception object, with the `str(e)` rendering used
by the source's f-strings. -/
inductive PyExn where
  | keyError (key : String)
  | typeError (desc : String)
  | indexError
  | unicodeDecodeError
  | jsonDecodeError
  | urlErr (desc : String)
  | other (desc : String)
deriving Repr, DecidableEq

/-- Python `str(e)` for the modelled exceptions.  `str` of a `KeyError`
is the repr of the missing key (quoted); the others carry their message. -/
def PyExn.str : PyExn → String
  | .keyError k => "\x27" ++ k ++ "\x27"
  | .typeError d => d
  | .indexError => "list index out of range"
  | .unicodeDecodeError =>
      "\x27utf-8\x27 codec can\x27t decode byte: invalid start byte"
  | .jsonDecodeError => "Expecting value: line 1 column 1 (char 0)"
  | .urlErr d => "<urlopen error " ++ d ++ ">"
  | .other d => d

/-- Model of a parsed JSON value as produced by `json.loads`.  Numbers
are modelled as integers (no claim touches fractional values); object
keys are unique because `json.loads` returns a `dict`. -/
inductive Json where
  | null
  | bool (b : Bool)
  | num (n : Int)
  | str (s : String)
  | arr (items : List Json)
  | obj (fields : List (String × Json))
deriving Repr

/-- Python equality test of a JSON value against a `str` (used by the
`in` operator on lists): only a `str` with the same characters is equal. -/
def Json.eqStr : Json → String → Bool
  | .str s, k => s == k
  | _, _ => false

/-- Contiguous-sublist test on character lists, used to model Python's
substring operator `in` on `str`. -/
def charSubList (needle : List Char) : List Char → Bool
  | [] => needle.isEmpty
  | c :: rest => needle.isPrefixOf (c :: rest) || charSubList needle rest

/-- Python `k in j` for a string `k`: key membership on a dict, element
membership on a list, substring test on a str; raises `TypeError` on the
scalar values. -/
def Json.containsKey (j : Json) (k : String) : Except PyExn Bool :=
  match j with
  | .obj fields => .ok (List.lookup k fields).isSome
  | .arr items => .ok (items.any (fun x => x.eqStr k))
  | .str s => .ok (charSubList k.data s.data)
  | _ => .error (.typeError "argument is not iterable")

/-- Python `j[k]` for a string key `k`: dict lookup (raising `KeyError`
when the key is absent); every other value raises `TypeError`. -/
def Json.subscriptStr (j : Json) (k : String) : Except PyExn Json :=
  match j with
  | .obj fields =>
      match List.lookup k fields with
      | some v => .ok v
      | none => .error (.keyError k)
  | _ => .error (.typeError "value is not subscriptable with a str key")

/-- Python `len(j)`: defined on lists, dicts and strings, `TypeError`
otherwise. -/
def Json.pyLen (j : Json) : Except PyExn Nat :=
  match j with
  | .arr items => .ok items.length
  | .obj fields => .ok fields.length
  | .str s => .ok s.length
  | _ => .error (.typeError "object has no len")

/-- Python `j[0]`: first element of a list (raising `IndexError` on an
empty one), first character of a str, `KeyError` on a dict (whose JSON
keys are all strings, so the int key `0` is absent), `TypeError`
otherwise. -/
def Json.indexZero (j : Json) : Except PyExn Json :=
  match j with
  | .arr items =>
      match items with
      | x :: _ => .ok x
      | [] => .error .indexError
  | .str s =>
      if s.isEmpty then .error .indexError
      else .ok (.str (String.singleton s.front))
  | .obj _ => .error (.keyError "0")
  | _ => .error (.typeError "value is not subscriptable with an int key")

/-- Python `str(j)` of a parsed JSON value, as an f-string interpolates
it: exact for strings, integers, booleans and `None`; container
renderings are approximated (no claim depends on them). -/
def Json.pyStr : Json → String
  | .str s => s
  | .num n => toString n
  | .bool true => "True"
  | .bool false => "False"
  | .null => "None"
  | .arr _ => "[...]"
  | .obj _ => "\x7b...\x7d"

/-- One message of the conversation history: a Python dict
`{"role": ..., "content": ...}`. -/
structure Message where
  role : String
  content : String
deriving Repr, DecidableEq

/-- State of a `TerminalChatbot` object: the configuration fields set in
`__init__` (lines 17-23) and the mutable conversation history. -/
structure TerminalChatbot where
  api_key : String
  conversation_history : List Message
  api_url : String
  model : String
  max_tokens : Nat
deriving Repr, DecidableEq

/-- Constructor `__init__(api_key=None)`: `api_key or "sk-..."` falls
back to the hard-coded default when the argument is `None` or falsy
(the empty string). -/
def TerminalChatbot.init (key : Option String) : TerminalChatbot :=
  { api_key :=
      match key with
      | some k => if k = "" then
          "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"
        else k
      | none =>
          "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"
    conversation_history := []
    api_url := "https://openrouter.ai/api/v1/chat/completions"
    model := "deepseek/deepseek-r1-0528:free"
    max_tokens := 1000 }

/-- Outcome of the simulated HTTP exchange in `make_api_request`.

`ok readResult` is an HTTP 200; `readResult` is the result of
`json.loads(response.read().decode('utf-8'))` on line 54, which raises
inside the `try` block when the body is unreadable, not valid UTF-8 or
not valid JSON.

`httpError code readResult parsed` is an `urllib.error.HTTPError`:
`readResult` is the result of `e.read().decode('utf-8')` on line 66
(which raises, e.g. `UnicodeDecodeError`, when the error body bytes are
not valid UTF-8 — note that line 66 executes inside the `except` clause,
outside any `try`); `parsed` is the result of `json.loads` on that body
(`none` when it raises).

`exn e` is any other exception raised inside the `try` block by the
transport (e.g. `urllib.error.URLError` on a connection failure). -/
inductive HttpOutcome where
  | ok (readResult : Except PyExn Json)
  | httpError (code : Nat) (readResult : Except PyExn String) (parsed : Option Json)
  | exn (e : PyExn)

/-- Lines 57-63: extraction of the assistant reply from the parsed 200
body.  Returns `some content` when `'choices' in result and
len(result['choices']) > 0` holds and `result['choices'][0]['message']['content']`
evaluates; `none` when the condition is `False`; an exception when any of
the Python subexpressions raises. -/
def extractAssistant (result : Json) : Except PyExn (Option String) := do
  let hasChoices ← result.containsKey "choices"
  if hasChoices then
    let choices ← result.subscriptStr "choices"
    let n ← choices.pyLen
    if 0 < n then
      let choices2 ← result.subscriptStr "choices"
      let first ← choices2.indexZero
      let msg ← first.subscriptStr "message"
      let content ← msg.subscriptStr "content"
      pure (some content.pyStr)
    else
      pure none
  else
    pure none

/-- Lines 74-79: the inner `try` of the generic HTTP-error branch.
`json.loads(error_msg)` is modelled by `parsed`; the branch returns
`some error_data['error']['message']` when the body parsed and the
condition `'error' in error_data and 'message' in error_data['error']`
holds; any exception is swallowed by `except: pass` and the condition
being `False` falls through, both yielding `none`. -/
def errBodyMessage (parsed : Option Json) : Option String :=
  match parsed with
  | none => none
  | some errorData =>
      match (do
        let hasErr ← errorData.containsKey "error"
        if hasErr then
          let inner ← errorData.subscriptStr "error"
          let hasMsg ← inner.containsKey "message"
          if hasMsg then
            let inner2 ← errorData.subscriptStr "error"
            let m ← inner2.subscriptStr "message"
            pure (some m.pyStr)
          else
            pure none
        else
          pure none : Except PyExn (Option String)) with
      | .ok r => r
      | .error _ => none

/-- Fixed apology string of line 63. -/
def apologyString : String := "I\x27m sorry, I couldn\x27t generate a response."

/-- Method `make_api_request` (lines 25-82).  Appends the user message to
the conversation history (line 29, the first statement of the `try`
block, which cannot raise), then dispatches on the outcome of the HTTP
exchange exactly as the source does.  A `.error` result models an
exception propagating out of the method: the only expression that can
raise outside every handler is `e.read().decode('utf-8')` on line 66,
which runs inside the `except HTTPError` clause. -/
def make_api_request (bot : TerminalChatbot) (message : String)
    (outcome : HttpOutcome) : Except PyExn (String × TerminalChatbot) :=
  let bot1 := { bot with
    conversation_history :=
      bot.conversation_history ++ [⟨"user", message⟩] }
  match outcome with
  | .ok readResult =>
      match readResult with
      | .error e => .ok ("❌ Error: " ++ e.str, bot1)
      | .ok result =>
          match extractAssistant result with
          | .ok (some assistantResponse) =>
              .ok (assistantResponse,
                { bot1 with
                  conversation_history :=
                    bot1.conversation_history ++
                      [⟨"assistant", assistantResponse⟩] })
          | .ok none => .ok (apologyString, bot1)
          | .error e => .ok ("❌ Error: " ++ e.str, bot1)
  | .httpError code readResult parsed =>
      match readResult with
      | .error e => .error e
      | .ok errorMsg =>
          if code = 401 then
            .ok ("❌ Authentication failed. Please check your API key.", bot1)
          else if code = 429 then
            .ok ("❌ Rate limit exceeded. Please wait a moment and try again.",
              bot1)
          else if code = 400 then
            .ok ("❌ Bad request. Please check your message format.", bot1)
          else
            match errBodyMessage parsed with
            | some m => .ok ("❌ API Error: " ++ m, bot1)
            | none =>
                .ok ("❌ API Error (" ++ toString code ++ "): " ++ errorMsg,
                  bot1)
  | .exn e => .ok ("❌ Error: " ++ e.str, bot1)

/-- Method `reset_history` (lines 129-132): `conversation_history.clear()`. -/
def reset_history (bot : TerminalChatbot) : TerminalChatbot :=
  { bot with conversation_history := [] }

/-- Line 125 of `show_history`: the content of a message rendered in the
history display, truncated to its first 100 characters followed by
`"..."` when it is longer than 100 characters. -/
def history_display_content (content : String) : String :=
  if content.length > 100 then content.take 100 ++ "..." else content

/-- Fixed model list of `switch_models` (lines 145-149). -/
def available_models : List String :=
  ["gpt-3.5-turbo", "gpt-4", "gpt-4-turbo-preview"]

/-- Python `s.strip()`: drop leading and trailing whitespace. -/
def pyStrip (s : String) : String :=
  String.mk
    (((s.data.dropWhile Char.isWhitespace).reverse.dropWhile
        Char.isWhitespace).reverse)

/-- Python `s.isdigit()` restricted to ASCII digit strings (the only
digit strings `int` then accepts): non-empty and all digits. -/
def pyIsDigit (s : String) : Bool :=
  !s.data.isEmpty && s.data.all Char.isDigit

/-- Python `int(s)` on a non-empty ASCII digit string. -/
def pyInt (s : String) : Nat :=
  s.data.foldl (fun a c => 10 * a + (c.toNat - 48)) 0

/-- Method `switch_models` (lines 143-169), applied to the raw input
line `choice` (the source strips it on line 157).  Returns the new
object state and the message printed.  `int(choice) - 1` is computed in
`Int` so that the selection `0` yields index `-1`, which fails the
range check `0 <= choice_idx < len(models)`. -/
def switch_models (bot : TerminalChatbot) (choice : String) :
    TerminalChatbot × String :=
  let c := pyStrip choice
  if c ≠ "" ∧ pyIsDigit c then
    let choiceIdx : Int := (pyInt c : Int) - 1
    if 0 ≤ choiceIdx ∧ choiceIdx < (available_models.length : Int) then
      let newModel := available_models.getD choiceIdx.toNat ""
      ({ bot with model := newModel }, "✅ Switched to model: " ++ newModel)
    else
      (bot, "❌ Invalid selection.")
  else
    (bot, "Cancelled.")

/-- Reply extracted from a 200 body when the exchange succeeds:
`some s` exactly when lines 57-61 run to completion and return `s`. -/
def successReply (body : Json) : Option String :=
  match extractAssistant body with
  | .ok r => r
  | .error _ => none

/-- A sequence of submissions, each with its input text and the parsed
200 body the simulated endpoint answers with; every exchange takes the
HTTP 200 path of `make_api_request`. -/
def run_submits (bot : TerminalChatbot) (steps : List (String × Json)) :
    TerminalChatbot :=
  match steps with
  | [] => bot
  | (m, b) :: rest =>
      match make_api_request bot m (.ok (.ok b)) with
      | .ok (_, bot2) => run_submits bot2 rest
      | .error _ => bot

/-- Transcript produced by a sequence of successful submissions: for
each step, the user message followed by the assistant reply extracted
from its 200 body. -/
def expected_transcript (steps : List (String × Json)) : List Message :=
  match steps with
  | [] => []
  | (m, b) :: rest =>
      ⟨"user", m⟩ :: ⟨"assistant", (successReply b).getD ""⟩ ::
        expected_transcript rest

/-- Parsed 200 body `{"choices":[{"message":{"content":"hi"}}]}` used by
the spec's concrete success scenario. -/
def sample_success_body : Json :=
  .obj [("choices", .arr [.obj [("message", .obj [("content", .str "hi")])]])]

/-! ### Helper lemmas -/

theorem extract_sample_success :
    extractAssistant sample_success_body = .ok (some "hi") := rfl

theorem error_prefix_ne_apology (t : String) :
    "❌ Error: " ++ t ≠ apologyString := by
  obtain ⟨l⟩ := t
  intro h
  have h1 : ("❌ Error: " ++ String.mk l).data.head? = some '❌' := rfl
  have h2 : apologyString.data.head? = some 'I' := rfl
  rw [h, h2] at h1
  exact absurd (Option.some.inj h1) (by decide)

/-! ### Claim theorems -/

/-- C1: for every session state, submitting `"hello"` against a
simulated HTTP 200 response with body
`{"choices":[{"message":{"content":"hi"}}]}` returns `"hi"` and appends
exactly the user message `"hello"` and the assistant message `"hi"`, in
that order, to the transcript. -/
theorem submit_success_hello_hi (bot : TerminalChatbot) :
    make_api_request bot "hello" (.ok (.ok sample_success_body)) =
      .ok ("hi",
        { bot with conversation_history :=
            bot.conversation_history ++
              [⟨"user", "hello"⟩, ⟨"assistant", "hi"⟩] }) := by
  simp [make_api_request, extract_sample_success]

/-- C5: for every session state, input text, decoded error body and
parse outcome, a simulated HTTP 401 response makes `make_api_request`
return the authentication-failure string; only the user message is
appended to the transcript, no assistant message. -/
theorem submit_http401_auth_failure (bot : TerminalChatbot) (msg : String)
    (body : String) (parsed : Option Json) :
    make_api_request bot msg (.httpError 401 (.ok body) parsed) =
      .ok ("❌ Authentication failed. Please check your API key.",
        { bot with conversation_history :=
            bot.conversation_history ++ [⟨"user", msg⟩] }) := rfl

/-- C7: for every prior state, `reset_history` leaves the transcript
empty. -/
theorem reset_history_empties_transcript (bot : TerminalChatbot) :
    (reset_history bot).conversation_history = [] := rfl

/-- C8: the history display truncates a message content to its first
100 characters followed by the ellipsis marker exactly when the content
is longer than 100 characters; content of at most 100 characters is
shown unmodified. -/
theorem history_display_truncation (c : String) :
    (c.length > 100 → history_display_content c = c.take 100 ++ "...") ∧
    (c.length ≤ 100 → history_display_content c = c) := by
  constructor
  · intro h
    simp [history_display_content, h]
  · intro h
    simp [history_display_content, Nat.not_lt.mpr h]

/-- Witness for C8: a 101-character content is truncated to 100
characters plus the ellipsis; a 5-character content is unmodified. -/
theorem history_display_truncation_witness :
    history_display_content (String.mk (List.replicate 101 'a')) =
      (String.mk (List.replicate 101 'a')).take 100 ++ "..." ∧
    history_display_content "short" = "short" :=
  ⟨(history_display_truncation (String.mk (List.replicate 101 'a'))).1
      (by decide),
   (history_display_truncation "short").2 (by decide)⟩

/-- C2: at the failing input — an HTTP error response whose body bytes
are not valid UTF-8 — `e.read().decode('utf-8')` on line 66 raises
inside the `except HTTPError` clause, outside every handler, and the
exception propagates out of `make_api_request` instead of being turned
into a string. -/
theorem submit_error_body_decode_failure_propagates :
    make_api_request (TerminalChatbot.init none) "hi"
      (.httpError 500 (.error .unicodeDecodeError) none) =
      .error .unicodeDecodeError := rfl

/-- C4: for every session state and input text, an HTTP 200 response
whose parsed body is an object with an empty `choices` array, or with no
`choices` key at all, makes `make_api_request` return the fixed apology
string; only the user message is appended, no assistant message. -/
theorem submit_no_choice_apology (bot : TerminalChatbot) (msg : String)
    (fields : List (String × Json))
    (h : List.lookup "choices" fields = none ∨
         List.lookup "choices" fields = some (.arr [])) :
    make_api_request bot msg (.ok (.ok (.obj fields))) =
      .ok (apologyString,
        { bot with conversation_history :=
            bot.conversation_history ++ [⟨"user", msg⟩] }) := by
  have he : extractAssistant (.obj fields) = .ok none := by
    rcases h with h | h <;>
      simp [extractAssistant, Json.containsKey, Json.subscriptStr,
        Json.pyLen, h, Bind.bind, Except.bind, pure, Except.pure]
  simp [make_api_request, he]

/-- Witness for C4: the body `{"choices":[]}` yields the apology string
and a transcript holding only the user message. -/
theorem submit_no_choice_apology_witness :
    make_api_request (TerminalChatbot.init none) "hello"
      (.ok (.ok (.obj [("choices", .arr [])]))) =
      .ok (apologyString,
        { TerminalChatbot.init none with
          conversation_history := [⟨"user", "hello"⟩] }) :=
  submit_no_choice_apology (TerminalChatbot.init none) "hello"
    [("choices", .arr [])] (Or.inr rfl)

/-- C6: for every HTTP error status other than 401, 429 and 400,
`make_api_request` returns the generic string
`"❌ API Error (<code>): <body>"`, except that when the error body parses
as JSON carrying a nested `error.message` field the returned string
carries that message instead of the raw body; either way only the user
message is appended. -/
theorem submit_other_http_error_generic (bot : TerminalChatbot)
    (msg : String) (code : Nat) (body : String) (parsed : Option Json)
    (h1 : code ≠ 401) (h2 : code ≠ 429) (h3 : code ≠ 400) :
    (errBodyMessage parsed = none →
      make_api_request bot msg (.httpError code (.ok body) parsed) =
        .ok ("❌ API Error (" ++ toString code ++ "): " ++ body,
          { bot with conversation_history :=
              bot.conversation_history ++ [⟨"user", msg⟩] })) ∧
    (∀ m, errBodyMessage parsed = some m →
      make_api_request bot msg (.httpError code (.ok body) parsed) =
        .ok ("❌ API Error: " ++ m,
          { bot with conversation_history :=
              bot.conversation_history ++ [⟨"user", msg⟩] })) := by
  constructor
  · intro hm
    simp [make_api_request, h1, h2, h3, hm]
  · intro m hm
    simp [make_api_request, h1, h2, h3, hm]

/-- Witness for C6: a 500 response with unparseable body `"oops"` yields
the raw-body form, and a 500 response whose body parses to
`{"error":{"message":"boom"}}` yields the `error.message` form. -/
theorem submit_other_http_error_generic_witness :
    (make_api_request (TerminalChatbot.init none) "q"
      (.httpError 500 (.ok "oops") none) =
      .ok ("❌ API Error (" ++ toString 500 ++ "): " ++ "oops",
        { TerminalChatbot.init none with
          conversation_history := [⟨"user", "q"⟩] })) ∧
    (make_api_request (TerminalChatbot.init none) "q"
      (.httpError 500 (.ok "x")
        (some (.obj [("error", .obj [("message", .str "boom")])]))) =
      .ok ("❌ API Error: " ++ "boom",
        { TerminalChatbot.init none with
          conversation_history := [⟨"user", "q"⟩] })) :=
  ⟨(submit_other_http_error_generic (TerminalChatbot.init none) "q" 500
      "oops" none (by decide) (by decide) (by decide)).1 rfl,
   (submit_other_http_error_generic (TerminalChatbot.init none) "q" 500
      "x" (some (.obj [("error", .obj [("message", .str "boom")])]))
      (by decide) (by decide) (by decide)).2 "boom" rfl⟩

/-- C10: for every HTTP 200 response whose parsed body has a non-empty
`choices` array but whose first choice lacks a `message` field (or whose
`message` lacks a `content` field), the lookup raises, the generic
`except Exception` handler catches it, and `make_api_request` returns a
string carrying the generic `"❌ Error: "` prefix — not the apology
string — while the transcript keeps the user message and gains no
assistant message. -/
theorem submit_malformed_choice_generic_error (bot : TerminalChatbot)
    (msg : String) (fields : List (String × Json)) (first : Json)
    (rest : List Json) (e : PyExn)
    (hc : List.lookup "choices" fields = some (.arr (first :: rest)))
    (hm : first.subscriptStr "message" = .error e ∨
          ∃ m, first.subscriptStr "message" = .ok m ∧
               m.subscriptStr "content" = .error e) :
    make_api_request bot msg (.ok (.ok (.obj fields))) =
      .ok ("❌ Error: " ++ e.str,
        { bot with conversation_history :=
            bot.conversation_history ++ [⟨"user", msg⟩] }) ∧
    "❌ Error: " ++ e.str ≠ apologyString := by
  have hcont : Json.containsKey (.obj fields) "choices" = .ok true := by
    simp [Json.containsKey, hc]
  have hsub : Json.subscriptStr (.obj fields) "choices" =
      .ok (.arr (first :: rest)) := by
    simp [Json.subscriptStr, hc]
  have he : extractAssistant (.obj fields) = .error e := by
    rcases hm with hm | ⟨m, hm1, hm2⟩
    · simp [extractAssistant, hcont, hsub, Json.pyLen, Json.indexZero,
        hm, Bind.bind, Except.bind, pure, Except.pure]
    · simp [extractAssistant, hcont, hsub, Json.pyLen, Json.indexZero,
        hm1, hm2, Bind.bind, Except.bind, pure, Except.pure,
        Functor.map, Except.map]
  exact ⟨by simp [make_api_request, he], error_prefix_ne_apology e.str⟩

/-- Witness for C10: the body `{"choices":[{}]}` — first choice an empty
object — raises `KeyError: 'message')` and yields the generic error
string `"❌ Error: 'message'"`. -/
theorem submit_malformed_choice_generic_error_witness :
    make_api_request (TerminalChatbot.init none) "hello"
      (.ok (.ok (.obj [("choices", .arr [.obj []])]))) =
      .ok ("❌ Error: " ++ (PyExn.keyError "message").str,
        { TerminalChatbot.init none with
          conversation_history := [⟨"user", "hello"⟩] }) ∧
    "❌ Error: " ++ (PyExn.keyError "message").str ≠ apologyString :=
  submit_malformed_choice_generic_error (TerminalChatbot.init none)
    "hello" [("choices", .arr [.obj []])] (.obj []) []
    (.keyError "message") rfl (Or.inl rfl)

/-- Helper: a submission whose 200 body yields a reply `s` returns `s`
and appends the user/assistant pair to the transcript. -/
theorem submit_ok_of_successReply (bot : TerminalChatbot) (m : String)
    (b : Json) (s : String) (h : successReply b = some s) :
    make_api_request bot m (.ok (.ok b)) =
      .ok (s,
        { bot with conversation_history :=
            bot.conversation_history ++
              [⟨"user", m⟩, ⟨"assistant", s⟩] }) := by
  have he : extractAssistant b = .ok (some s) := by
    unfold successReply at h
    cases hE : extractAssistant b with
    | error e => rw [hE] at h; simp at h
    | ok r => rw [hE] at h; simp at h; rw [h]
  simp [make_api_request, he]

/-- Helper: the transcript after `run_submits` over all-successful
steps is the prior transcript extended by the expected user/assistant
pairs. -/
theorem run_submits_history (steps : List (String × Json))
    (bot : TerminalChatbot)
    (hs : ∀ p ∈ steps, (successReply p.2).isSome = true) :
    (run_submits bot steps).conversation_history =
      bot.conversation_history ++ expected_transcript steps := by
  induction steps generalizing bot with
  | nil => simp [run_submits, expected_transcript]
  | cons p rest ih =>
      obtain ⟨m, b⟩ := p
      obtain ⟨s, hsome⟩ := Option.isSome_iff_exists.mp
        (hs (m, b) (List.mem_cons_self _ _))
      have hstep := submit_ok_of_successReply bot m b s hsome
      rw [run_submits, hstep]
      rw [ih _ (fun q hq => hs q (List.mem_cons_of_mem _ hq))]
      simp [expected_transcript, hsome]

/-- Helper: the expected transcript has two messages per step. -/
theorem expected_transcript_length (steps : List (String × Json)) :
    (expected_transcript steps).length = 2 * steps.length := by
  induction steps with
  | nil => simp [expected_transcript]
  | cons p rest ih =>
      simp [expected_transcript, ih]
      ring

/-- Helper: the expected transcript alternates the `user` and
`assistant` roles. -/
theorem expected_transcript_roles (steps : List (String × Json)) :
    ∀ i m, (expected_transcript steps).get? i = some m →
      m.role = if i % 2 = 0 then "user" else "assistant" := by
  induction steps with
  | nil => intro i m h; simp [expected_transcript] at h
  | cons p rest ih =>
      intro i m h
      match i with
      | 0 =>
          simp [expected_transcript] at h
          simp [← h]
      | 1 =>
          simp [expected_transcript] at h
          simp [← h]
      | Nat.succ (Nat.succ j) =>
          have hj : (expected_transcript rest).get? j = some m := by
            simpa [expected_transcript] using h
          have hmod : Nat.succ (Nat.succ j) % 2 = j % 2 := by omega
          rw [hmod]
          exact ih j m hj

/-- C3: starting from an empty transcript, a sequence of submissions
whose simulated 200 bodies all yield a reply produces a transcript that
is exactly the expected user/assistant pair for each step in order, has
length twice the number of submissions, and alternates the `user` and
`assistant` roles chronologically. -/
theorem run_submits_transcript_pairs (bot : TerminalChatbot)
    (steps : List (String × Json))
    (h0 : bot.conversation_history = [])
    (hs : ∀ p ∈ steps, (successReply p.2).isSome = true) :
    (run_submits bot steps).conversation_history =
      expected_transcript steps ∧
    (run_submits bot steps).conversation_history.length =
      2 * steps.length ∧
    (∀ i m,
      (run_submits bot steps).conversation_history.get? i = some m →
        m.role = if i % 2 = 0 then "user" else "assistant") := by
  have h := run_submits_history steps bot hs
  rw [h0] at h
  simp only [List.nil_append] at h
  refine ⟨h, ?_, ?_⟩
  · rw [h, expected_transcript_length]
  · intro i m hm
    rw [h] at hm
    exact expected_transcript_roles steps i m hm

/-- Witness for C3: two successful submissions from an empty transcript
leave a transcript of length 4. -/
theorem run_submits_transcript_pairs_witness :
    (run_submits (TerminalChatbot.init none)
        [("a", sample_success_body),
         ("b", sample_success_body)]).conversation_history.length =
      2 * 2 := by
  have h := (run_submits_transcript_pairs (TerminalChatbot.init none)
    [("a", sample_success_body), ("b", sample_success_body)] rfl
    (by decide)).2.1
  simpa using h

/-- Helper: whenever `make_api_request` returns normally, the resulting
state keeps every configuration field of the prior state; only the
conversation history changes. -/
theorem make_api_request_config_frame (bot : TerminalChatbot)
    (msg : String) (outcome : HttpOutcome) (s : String)
    (bot2 : TerminalChatbot)
    (h : make_api_request bot msg outcome = .ok (s, bot2)) :
    bot2.api_key = bot.api_key ∧ bot2.api_url = bot.api_url ∧
    bot2.model = bot.model ∧ bot2.max_tokens = bot.max_tokens := by
  unfold make_api_request at h
  repeat' split at h
  all_goals simp at h
  all_goals obtain ⟨h1, h2⟩ := h
  all_goals subst h2
  all_goals exact ⟨rfl, rfl, rfl, rfl⟩

/-- C9: for every state and every numeric selection, a selection outside
1..3 leaves the configured model identifier unchanged and reports an
invalid selection, a selection inside 1..3 replaces only the model
identifier, and no operation — a normal `make_api_request` return,
`reset_history`, or `switch_models` itself — changes any other
configuration field. -/
theorem switch_models_selection_and_frame (bot : TerminalChatbot)
    (choice : String) (n : Nat)
    (hne : pyStrip choice ≠ "")
    (hdig : pyIsDigit (pyStrip choice) = true)
    (hn : pyInt (pyStrip choice) = n) :
    ((n = 0 ∨ 3 < n) →
      switch_models bot choice = (bot, "❌ Invalid selection.")) ∧
    (1 ≤ n → n ≤ 3 →
      switch_models bot choice =
        ({ bot with model := available_models.getD (n - 1) "" },
          "✅ Switched to model: " ++ available_models.getD (n - 1) "")) ∧
    (∀ msg outcome s bot2,
      make_api_request bot msg outcome = .ok (s, bot2) →
        bot2.api_key = bot.api_key ∧ bot2.api_url = bot.api_url ∧
        bot2.model = bot.model ∧ bot2.max_tokens = bot.max_tokens) ∧
    ((reset_history bot).api_key = bot.api_key ∧
      (reset_history bot).api_url = bot.api_url ∧
      (reset_history bot).model = bot.model ∧
      (reset_history bot).max_tokens = bot.max_tokens) ∧
    ((switch_models bot choice).1.api_key = bot.api_key ∧
      (switch_models bot choice).1.api_url = bot.api_url ∧
      (switch_models bot choice).1.max_tokens = bot.max_tokens) := by
  have key : switch_models bot choice =
      if 0 ≤ ((n : Int) - 1) ∧ ((n : Int) - 1) < 3 then
        ({ bot with model := available_models.getD ((n : Int) - 1).toNat "" },
          "✅ Switched to model: " ++
            available_models.getD ((n : Int) - 1).toNat "")
      else (bot, "❌ Invalid selection.") := by
    unfold switch_models
    rw [if_pos ⟨hne, hdig⟩, hn]
    rfl
  refine ⟨?_, ?_, ?_, ⟨rfl, rfl, rfl, rfl⟩, ?_⟩
  · intro hcase
    rw [key, if_neg (by omega)]
  · intro h1 h3
    rw [key, if_pos (by omega),
      show ((n : Int) - 1).toNat = n - 1 from by omega]
  · intro msg outcome s bot2 h
    exact make_api_request_config_frame bot msg outcome s bot2 h
  · rw [key]
    split <;> exact ⟨rfl, rfl, rfl⟩

/-- Witness for C9: with the default configuration, the out-of-range
selection `"4"` leaves the state unchanged and reports an invalid
selection, and the in-range selection `"2"` replaces only the model
identifier with `"gpt-4"`. -/
theorem switch_models_selection_and_frame_witness :
    switch_models (TerminalChatbot.init none) "4" =
      (TerminalChatbot.init none, "❌ Invalid selection.") ∧
    switch_models (TerminalChatbot.init none) "2" =
      ({ TerminalChatbot.init none with
          model := available_models.getD 1 "" },
        "✅ Switched to model: " ++ available_models.getD 1 "") :=
  ⟨(switch_models_selection_and_frame (TerminalChatbot.init none) "4" 4
      (by decide) (by decide) (by decide)).1 (Or.inr (by decide)),
   ((switch_models_selection_and_frame (TerminalChatbot.init none) "2" 2
      (by decide) (by decide) (by decide)).2.1 (by decide) (by decide))⟩
